import Mathlib

/-!
Verification development for the WhatsApp e-commerce chatbot.

The Python sources are shallowly embedded: Python strings are modelled as
lists of characters (`Str`) so that every operation is structurally
recursive and kernel-computable; dynamically typed values flowing out of
the LLM-response parser are modelled by the small sum type `PyVal`
(`None` / `str` / `list of str`); code that can raise is modelled in
`Except`; every external collaborator (the LLM completion service, the
Converty commerce API, the SQL engine, the language detector) is an
explicit oracle argument, since the sources treat them as injectable
black boxes.
-/

namespace Chatbot

/-! ## Python string primitives over `List Char`

`Str` models a Python `str`.  `splitOnQ`, `trimQ`, `lowerQ`, `containsQ`
model `str.split(sep)`, `str.strip()`, `str.lower()` and `sep in s`.
-/

abbrev Str := List Char

/-- Coerce a Lean string literal to the `List Char` model. -/
def S (s : String) : Str := s.data

/-- `p` is a prefix of `s` (Boolean, structural). -/
def isPrefixOfQ : Str → Str → Bool
  | [], _ => true
  | _ :: _, [] => false
  | p :: ps, c :: cs => p = c && isPrefixOfQ ps cs

/-- Worker for `splitOnQ`; `fuel` bounds the scan so the recursion is
structural (callers pass `s.length + 1`, which is always enough). -/
def splitOnGo (sep : Str) : Nat → Str → Str → List Str
  | 0, acc, rest => [acc.reverse ++ rest]
  | _ + 1, acc, [] => [acc.reverse]
  | fuel + 1, acc, c :: cs =>
    if isPrefixOfQ sep (c :: cs) then
      acc.reverse :: splitOnGo sep fuel [] ((c :: cs).drop sep.length)
    else
      splitOnGo sep fuel (c :: acc) cs

/-- Python `s.split(sep)` for a non-empty separator (the sources never
split on an empty separator). -/
def splitOnQ (s sep : Str) : List Str :=
  if sep = [] then [s] else splitOnGo sep (s.length + 1) [] s

/-- Python `sep in s` (substring containment); equivalent to the
`len(parts) > 1` check the parser performs after splitting. -/
def containsQ (s sep : Str) : Bool := (splitOnQ s sep).length > 1

/-- Python `s.strip()`. -/
def trimQ (s : Str) : Str :=
  ((s.dropWhile Char.isWhitespace).reverse.dropWhile Char.isWhitespace).reverse

/-- Python `s.lower()` (the sources only lowercase ASCII). -/
def lowerQ (s : Str) : Str := s.map Char.toLower

/-- Text after the first occurrence of `sep` (used to model regex scans). -/
def afterFirstQ (s sep : Str) : Option Str :=
  match splitOnQ s sep with
  | _ :: rest@(_ :: _) => some (List.intercalate sep rest)
  | _ => none

/-! ## `chatbot/llm.py` — `extract_answer`

`extract_answer(response, key)` first looks for a fenced ```json block;
if one is present its content is fed to `json.loads` and the JSON branch
answers (even when parsing fails).  Otherwise the line-tag
interpretation runs: the text after the *last* occurrence of `key`, cut
at the next `**` and stripped, is the value, dispatched per key.  A key
matching none of the per-key branches falls off the end of the function,
i.e. Python returns `None` — `PyVal.pyNone` below.

`json.loads` itself is an injected oracle `jsonLoads : Str → Option JObj`
(the sources treat the JSON library as a black box); a parsed JSON object
is a finite map whose values are strings, arrays of strings, or anything
else carried by its `str()` rendering.
-/

/-- A dynamically-typed Python value as returned by `extract_answer`. -/
inductive PyVal where
  | pyNone : PyVal
  | pyStr : Str → PyVal
  | pyList : List Str → PyVal
deriving DecidableEq, Repr

/-- A JSON value inside a parsed ```json block. -/
inductive JVal where
  | jStr : Str → JVal
  | jList : List Str → JVal
  | jOther : Str → JVal
deriving DecidableEq, Repr

/-- A parsed JSON object (finite map). -/
structure JObj where
  entries : List (Str × JVal)
deriving DecidableEq, Repr

/-- Dictionary lookup, `json_data.get(k)`. -/
def JObj.get? (j : JObj) (k : Str) : Option JVal :=
  (j.entries.find? (fun e => e.1 = k)).map (fun e => e.2)

/-- Python `str()` of a JSON value (`str` of a list of strings renders
with single quotes, as CPython does). -/
def strOfJVal : JVal → Str
  | JVal.jStr s => s
  | JVal.jList [] => S "[]"
  | JVal.jList l =>
      S "[" ++ List.intercalate (S ", ") (l.map (fun s => S "\x27" ++ s ++ S "\x27")) ++ S "]"
  | JVal.jOther r => r

/-- The group captured by `re.search(r"```json\s*(.*?)\s*```", response, re.DOTALL)`:
the text between the first ```json fence and the next ``` fence, stripped. -/
def jsonBlock (response : Str) : Option Str :=
  match afterFirstQ response (S "```json") with
  | none => none
  | some after =>
    match splitOnQ after (S "```") with
    | before :: _ :: _ => some (trimQ before)
    | _ => none

/-- `valid_intents` (llm.py lines 115–124 and 145–154). -/
def valid_intents : List Str :=
  [S "new_order", S "retrieve_order", S "list_products", S "greeting",
   S "address", S "update_address", S "report_issue", S "none"]

/-- `valid_category` (llm.py lines 170–179). -/
def valid_category : List Str :=
  [S "defective", S "wrong_item", S "missing_item", S "delivery",
   S "quality", S "quantity", S "packaging", S "other"]

/-- `valid_languages` (llm.py line 182). -/
def valid_languages : List Str := [S "english", S "french", S "arabic"]

/-- The list-comprehension `[item.strip() for item in value.split(",") if item.strip()]
if value else []` used for the `**Products:**` / `**IssueProduct:**` keys. -/
def splitClean (value : Str) : List Str :=
  if value = [] then []
  else ((splitOnQ value (S ",")).map trimQ).filter (fun t => t ≠ [])

/-- `value = parts[-1].split("**")[0].strip()` (llm.py line 142): the
text after the last occurrence of `key`, cut at the next `**`, stripped. -/
def tagValue (response key : Str) : Str :=
  trimQ (((splitOnQ (((splitOnQ response key).getLastD [])) (S "**")).headD []))

/-- Line-tag interpretation of `extract_answer` (llm.py lines 139–192).
The final `pyNone` models Python falling off the end of the function
(only a log is emitted; there is no `return`). -/
def extract_answer_line (response key : Str) : PyVal :=
  if containsQ response key then
    if key = S "**Intent:**" then
      if lowerQ (tagValue response key) ∈ valid_intents then
        PyVal.pyStr (lowerQ (tagValue response key))
      else PyVal.pyStr (S "none")
    else if key = S "**Products:**" then
      PyVal.pyList (splitClean (tagValue response key))
    else if key = S "**IssueProduct:**" then
      PyVal.pyList (splitClean (tagValue response key))
    else if key = S "**Category:**" then
      if tagValue response key ∈ valid_category then PyVal.pyStr (tagValue response key)
      else PyVal.pyStr (S "none")
    else if key = S "**Language:**" then
      if lowerQ (tagValue response key) ∈ valid_languages then
        PyVal.pyStr (lowerQ (tagValue response key))
      else PyVal.pyStr (S "none")
    else if key = S "**Response:**" then
      PyVal.pyStr (tagValue response key)
    else if key = S "**Address:**" then
      PyVal.pyStr (tagValue response key)
    else
      PyVal.pyNone
  else
    PyVal.pyNone

/-- `extract_answer(response, key)` (llm.py lines 98–192), with
`json.loads` injected as the oracle `jsonLoads` (`none` = `JSONDecodeError`). -/
def extract_answer (jsonLoads : Str → Option JObj) (response key : Str) : PyVal :=
  match jsonBlock response with
  | some block =>
    match jsonLoads block with
    | some json_data =>
      if key = S "**Intent:**" ∧ (json_data.get? (S "intent")).isSome then
        match json_data.get? (S "intent") with
        | some (JVal.jStr s) =>
            if s ∈ valid_intents then PyVal.pyStr s else PyVal.pyStr (S "none")
        | _ => PyVal.pyStr (S "none")
      else if key = S "**Products:**" ∧ (json_data.get? (S "products")).isSome then
        match json_data.get? (S "products") with
        | some (JVal.jList l) => PyVal.pyList l
        | some (JVal.jStr s) => PyVal.pyList (splitOnQ s (S ","))
        | _ => PyVal.pyList []
      else
        PyVal.pyStr (strOfJVal ((json_data.get? key).getD
          (if key = S "**Products:**" then JVal.jList [] else JVal.jStr (S "none"))))
    | none =>
      if key = S "**Products:**" then PyVal.pyList [] else PyVal.pyStr (S "none")
  | none => extract_answer_line response key

/-- A `json.loads` oracle that always fails; any oracle gives the same
result on a response with no ```json fence. -/
def jsonNoParse : Str → Option JObj := fun _ => none

/-! ## `chatbot/handlers.py` — data model of a conversation turn

`AgentState` (chatbot/types.py) is a dict of dynamically-typed fields;
the fields are modelled at the types they actually take at runtime:
`requested_items` is `None` initially and a list (exceptionally a string)
afterwards (`PyItems`), `response`/`intent`/`issue_product`/`address`
take parser outputs (`PyVal`), `next_step` is `None` or `"await_address"`.
The ghost field `trace` records the Converty/store API calls a retained
turn performs, in order; it exists only to state theorems about which
calls happen.

Every LLM completion and every external API outcome is a field of
`TurnEnv`: `Option Str` completions are `none` when the inference call
raises, `Except` results carry an API error dict in `.error`.
-/

/-- Python truthiness of a parser output (`if generated_response:` …). -/
def PyVal.truthy : PyVal → Bool
  | PyVal.pyNone => false
  | PyVal.pyStr s => !s.isEmpty
  | PyVal.pyList l => !l.isEmpty

/-- Python iteration over a parser output: a list yields its elements, a
string yields its characters as one-character strings, `None` is never
iterated on the paths that reach iteration. -/
def PyVal.elems : PyVal → List Str
  | PyVal.pyNone => []
  | PyVal.pyStr s => s.map (fun c => [c])
  | PyVal.pyList l => l

/-- Python `len` of a parser output viewed as a sequence. -/
def PyVal.seqLen : PyVal → Nat
  | PyVal.pyNone => 0
  | PyVal.pyStr s => s.length
  | PyVal.pyList l => l.length

/-- Runtime values of `state["requested_items"]`: `None` (fresh state),
a string (defended against in `handle_new_order`), or a list. -/
inductive PyItems where
  | riNone : PyItems
  | riStr : Str → PyItems
  | riList : List Str → PyItems
deriving DecidableEq, Repr

/-- Python truthiness of `requested_items`. -/
def PyItems.truthy : PyItems → Bool
  | PyItems.riNone => false
  | PyItems.riStr s => !s.isEmpty
  | PyItems.riList l => !l.isEmpty

/-- Python iteration over `requested_items` (a string yields its
characters as one-character strings). -/
def PyItems.asList : PyItems → List Str
  | PyItems.riNone => []
  | PyItems.riStr s => s.map (fun c => [c])
  | PyItems.riList l => l

/-- One catalog entry as normalized by `api_call("list_products")`
(`{"name": …, "price": …}`; the price is carried as its rendered text). -/
structure ProductEntry where
  name : Str
  price : Str
deriving DecidableEq, Repr

/-- One order as normalized by `api_call("get_orders")`. -/
structure OrderRec where
  order_id : Str
  items : List Str
  status : Str
deriving DecidableEq, Repr

/-- Values of `state["order_data"]`. -/
inductive OrderData where
  | odNone : OrderData
  | odResult : Str → OrderData
  | odOrders : List OrderRec → OrderData
deriving DecidableEq, Repr

/-- The Converty/store API calls a handler can emit (ghost trace). -/
inductive ApiCall where
  | getUser : ApiCall
  | listProducts : ApiCall
  | updateAddress : Str → ApiCall
  | newOrder : List Str → Option Str → ApiCall
  | getOrders : ApiCall
  | saveIssue : ApiCall
deriving DecidableEq, Repr

/-- The per-counterparty conversation state (chatbot/types.py
`AgentState`, as initialized in chatbot/webhook.py lines 94–105). -/
structure ChatState where
  user_input : Str
  original_input : Str
  language : Str
  intent : PyVal
  next_step : Option Str
  requested_items : PyItems
  issue_product : PyVal
  address : PyVal
  response : PyVal
  order_data : OrderData
  trace : List ApiCall
deriving DecidableEq, Repr

/-- The external world of one turn: LLM completions (`none` = the
inference call raised) and collaborator results. -/
structure TurnEnv where
  jl : Str → Option JObj
  detectedLanguage : Str
  classifyLlm : Option Str
  getUserAddress : Str
  products : List ProductEntry
  matchLlm : Option Str
  noOrderResult : Except Str Str
  noConfirmLlm : Option Str
  noAskAddrLlm : Option Str
  aiOrderResult : Except Str Str
  aiConfirmLlm : Option Str
  greetLlm : Option Str
  noneLlm : Option Str
  listLlm : Option Str
  orders : List OrderRec
  roLlm : Option Str
  roErrLlm : Option Str
  riNoProdLlm : Option Str
  riNoOrdersLlm : Option Str
  riMatchLlm : Option Str
  riNoMatchLlm : Option Str
  riCatLlm : Option Str
  saveIssueResult : Except Str Str
  riConfirmLlm : Option Str
  riErrLlm : Option Str

/-- `", ".join(items)`. -/
def joinComma (l : List Str) : Str := List.intercalate (S ", ") l

/-- Three-way language dispatch (`if language == "french" … elif "arabic" … else`). -/
def byLang (language fr ar en : Str) : Str :=
  if language = S "french" then fr else if language = S "arabic" then ar else en

/-- handlers.py lines 346–351. -/
def errOrderMsg (language : Str) : Str :=
  byLang language
    (S "Désolé, une erreur s’est produite avec votre commande. Pouvez-vous préciser les produits ?")
    (S "عذرًا، حدث خطأ في طلبك. هل يمكنك تحديد المنتجات؟")
    (S "Sorry, an error occurred with your order. Could you specify the products?")

/-- handlers.py lines 356–363. -/
def noProductsSpecifiedMsg (language : Str) : Str :=
  byLang language
    (S "Désolé, aucun produit n’a été spécifié. Pouvez-vous préciser le nom du produit ?")
    (S "عذرًا، لم يتم تحديد أي منتج. هل يمكنك تحديد اسم المنتج؟")
    (S "Sorry, no products were specified. Could you specify the product name?")

/-- handlers.py lines 449–456. -/
def cantFindMsg (language : Str) : Str :=
  byLang language
    (S "Désolé, je n’ai pas trouvé les produits que vous souhaitez commander. Pouvez-vous préciser les noms des produits ?")
    (S "عذرًا، لم أجد المنتجات التي تريد طلبها. هل يمكنك تحديد أسماء المنتجات؟")
    (S "Sorry, I couldn’t find the products you want to order. Could you specify the product names?")

/-- handlers.py lines 471–477 (`m` = the joined matched names). -/
def unavailableMsg (language m : Str) : Str :=
  byLang language
    (S "Les produits " ++ m ++ S " ne sont pas disponibles. Voulez-vous voir nos produits ?")
    (S "المنتجات " ++ m ++ S " غير متوفرة. هل تريد رؤية منتجاتنا؟")
    (S "The products " ++ m ++ S " are not available. Would you like to see our products?")

/-- handlers.py lines 505–510 / 529–534 / 624–630 / 649–654. -/
def errCreateMsg (language m : Str) : Str :=
  byLang language
    (S "Une erreur s’est produite lors de la création de votre commande pour " ++ m ++ S ". Veuillez réessayer.")
    (S "حدث خطأ أثناء إنشاء طلبك لـ " ++ m ++ S ". يرجى المحاولة مرة أخرى.")
    (S "An error occurred while creating your order for " ++ m ++ S ". Please try again.")

/-- handlers.py lines 550–558. -/
def provideAddrMsg (language m : Str) : Str :=
  byLang language
    (S "Veuillez fournir votre adresse pour commander " ++ m ++ S ".")
    (S "يرجى تقديم عنوانك لطلب " ++ m ++ S ".")
    (S "Please provide your address to order " ++ m ++ S ".")

/-- handlers.py lines 587–595. -/
def provideValidAddrMsg (language m : Str) : Str :=
  byLang language
    (S "Veuillez fournir une adresse valide pour commander " ++ m ++ S ".")
    (S "يرجى تقديم عنوان صالح لطلب " ++ m ++ S ".")
    (S "Please provide a valid address to order " ++ m ++ S ".")

/-- handlers.py lines 601–609. -/
def noProductsSelectedMsg (language : Str) : Str :=
  byLang language
    (S "Erreur : aucun produit sélectionné. Veuillez indiquer les produits que vous souhaitez commander.")
    (S "خطأ: لم يتم اختيار أي منتج. يرجى تحديد المنتجات التي تريد طلبها.")
    (S "Error: No products selected. Please specify the products you want to order.")

/-- handlers.py lines 283–288. -/
def greetingMsg (language : Str) : Str :=
  byLang language
    (S "Bonjour ! Comment puis-je vous aider aujourd\x27hui ?")
    (S "مرحبًا! كيف يمكنني مساعدتك اليوم؟")
    (S "Hello! How can I assist you today?")

/-- handlers.py lines 231–238. -/
def clarifyMsg (language : Str) : Str :=
  byLang language
    (S "Désolé, je n’ai pas compris votre demande. Pouvez-vous préciser, comme lister nos produits ou vérifier une commande ?")
    (S "عذرًا، لم أفهم طلبك. هل يمكنك التوضيح، مثل سرد المنتجات أو التحقق من طلب؟")
    (S "Sorry, I didn’t understand your request. Could you clarify, like listing our products or checking an order?")

/-- handlers.py lines 174–179. -/
def noCatalogMsg (language : Str) : Str :=
  byLang language
    (S "Désolé, aucun produit n\x27est disponible pour le moment.")
    (S "عذرًا، لا توجد منتجات متاحة في الوقت الحالي.")
    (S "Sorry, no products are available at the moment.")

/-! ### The entity-resolution normalization of `handle_new_order`

Lines 395–445: the matching LLM call is made only when both
`requested_items` and `products` are non-empty; its parsed output is
truncated to `len(requested_items)` and padded with `"none"`.  Slicing
works on both Python lists and strings; padding a string (or slicing
`None`) raises `TypeError`, which the surrounding `except` turns into
`["none"] * len(requested_items)` — as does a raising LLM call.
-/

/-- Lines 433–440 (`matched_products[:n]` + padding) together with the
`except` handler at 442–445 catching the `TypeError` cases. -/
def truncPadMatched (v : PyVal) (n : Nat) : PyVal :=
  match v with
  | PyVal.pyList l =>
      let t := l.take n
      if t.isEmpty || decide (t.length < n) then
        PyVal.pyList (t ++ List.replicate (n - t.length) (S "none"))
      else PyVal.pyList t
  | PyVal.pyStr s =>
      let t := s.take n
      if t.isEmpty || decide (t.length < n) then
        PyVal.pyList (List.replicate n (S "none"))
      else PyVal.pyStr t
  | PyVal.pyNone => PyVal.pyList (List.replicate n (S "none"))

/-- The full resolution step of `handle_new_order` (lines 395–445):
`llmOutcome` is `none` when the matching LLM call raised, otherwise the
parsed `**Products:**` value. -/
def matchRequested (llmOutcome : Option PyVal) (requested_items productNames : List Str) : PyVal :=
  if requested_items ≠ [] ∧ productNames ≠ [] then
    match llmOutcome with
    | some v => truncPadMatched v requested_items.length
    | none => PyVal.pyList (List.replicate requested_items.length (S "none"))
  else PyVal.pyList []

/-! ### The handlers (chatbot/handlers.py) -/

/-- `detect_language` (llm.py lines 43–95): strips the input, keeps the
original, and stores a language that is always one of the three valid
ones (the greeting dictionary, the confidence threshold and every
fallback land in `valid_languages`, revalidated at lines 76–84); the
detector itself is the oracle `env.detectedLanguage`. -/
def detect_language (st : ChatState) (env : TurnEnv) : ChatState :=
  let user_input := trimQ st.user_input
  let language :=
    if env.detectedLanguage ∈ valid_languages then env.detectedLanguage else S "english"
  { st with user_input := user_input, original_input := user_input, language := language }

/-- `process_input` (handlers.py lines 19–147). -/
def process_input (st : ChatState) (env : TurnEnv) : ChatState :=
  let user_input := trimQ st.user_input
  if st.next_step = some (S "await_address") then
    { st with user_input := user_input, intent := PyVal.pyStr (S "none"),
              address := PyVal.pyStr user_input }
  else if user_input = [] then
    { st with intent := PyVal.pyStr (S "none"), requested_items := PyItems.riList [],
              issue_product := PyVal.pyStr (S "none") }
  else
    match env.classifyLlm with
    | none =>
      -- the streaming LLM call raised; except branch, lines 137–147
      { st with intent := PyVal.pyStr (S "none"), requested_items := PyItems.riList [],
                issue_product := PyVal.pyStr (S "none") }
    | some response =>
      let intent0 := extract_answer env.jl response (S "**Intent:**")
      let raw0 := extract_answer env.jl response (S "**Items:**")
      let issue_product := extract_answer env.jl response (S "**IssueProduct:**")
      let address := extract_answer env.jl response (S "**Address:**")
      let intentValid : Bool :=
        match intent0 with
        | PyVal.pyStr s =>
            decide (s ∈ [S "new_order", S "retrieve_order", S "list_products",
                         S "greeting", S "report_issue", S "none"])
        | _ => false
      let intent := if intentValid then intent0 else PyVal.pyStr (S "none")
      let raw := if intentValid then raw0 else PyVal.pyStr (S "none")
      let requested_items :=
        if intent = PyVal.pyStr (S "new_order") then
          match raw with
          | PyVal.pyStr s =>
              if s = S "none" ∨ s = [] ∨ lowerQ s ∈ [S "non-relevant", S ""] then
                PyItems.riList []
              else if containsQ s (S ",") then
                PyItems.riList (((splitOnQ s (S ",")).map trimQ).filter (fun t => t ≠ []))
              else PyItems.riList [trimQ s]
          | _ =>
              -- `None` is falsy, giving []; a Python list never reaches here
              -- because the `**Items:**` key never parses to one
              PyItems.riList []
        else PyItems.riList []
      let requested_items :=
        if intent = PyVal.pyStr (S "list_products") then PyItems.riList [] else requested_items
      { st with intent := intent, requested_items := requested_items,
                issue_product := issue_product, address := address }

/-- The targets of `route_intent` (graph.py lines 46–66). -/
inductive Route where
  | rListProducts | rGreeting | rNone | rNewOrder | rAddressInput | rRetrieveOrder | rReportIssue
deriving DecidableEq, Repr

/-- `route_intent` (graph.py lines 46–66): the `await_address` check
precedes intent dispatch; any unmatched intent value falls to `handle_none`. -/
def route_intent (st : ChatState) : Route :=
  if st.next_step = some (S "await_address") then Route.rAddressInput
  else if st.intent = PyVal.pyStr (S "list_products") then Route.rListProducts
  else if st.intent = PyVal.pyStr (S "greeting") then Route.rGreeting
  else if st.intent = PyVal.pyStr (S "none") then Route.rNone
  else if st.intent = PyVal.pyStr (S "new_order") then Route.rNewOrder
  else if st.intent = PyVal.pyStr (S "retrieve_order") then Route.rRetrieveOrder
  else if st.intent = PyVal.pyStr (S "report_issue") then Route.rReportIssue
  else Route.rNone

/-- Body of `handle_new_order` after the `requested_items` type/emptiness
validation (handlers.py lines 367–563); `requested_items` is the
validated non-empty list. -/
def handle_new_order_core (st : ChatState) (env : TurnEnv) (requested_items : List Str) : ChatState :=
  let language := st.language
  let st := { st with trace := st.trace ++ [ApiCall.getUser] }
  let existing_address := env.getUserAddress
  let st := { st with trace := st.trace ++ [ApiCall.listProducts] }
  let products := env.products
  let matched_products := matchRequested
    (env.matchLlm.map (fun t => extract_answer env.jl t (S "**Products:**")))
    requested_items (products.map (fun p => p.name))
  if !matched_products.truthy || matched_products.elems.all (fun p => p == S "none") then
    { st with response := PyVal.pyStr (cantFindMsg language) }
  else
    let valid_products := matched_products.elems.filter
      (fun p => p != S "none" && products.any (fun q => lowerQ q.name == lowerQ p))
    if valid_products = [] then
      { st with response := PyVal.pyStr (unavailableMsg language (joinComma matched_products.elems)) }
    else
      let st := { st with requested_items := PyItems.riList valid_products }
      if existing_address ≠ S "none" ∧ existing_address ≠ S "unknown" then
        let st := { st with trace := st.trace ++ [ApiCall.newOrder valid_products (some existing_address)] }
        match env.noOrderResult with
        | Except.error _ =>
            { st with response := PyVal.pyStr (errCreateMsg language (joinComma valid_products)) }
        | Except.ok order_id =>
            let st := { st with order_data := OrderData.odResult order_id }
            match env.noConfirmLlm with
            | none =>
                -- confirmation llm.invoke raised; except branch at lines 527–535
                { st with response := PyVal.pyStr (errCreateMsg language (joinComma valid_products)) }
            | some t =>
                { st with response := extract_answer env.jl t (S "**Response:**"),
                          next_step := none, requested_items := PyItems.riList [] }
      else
        match env.noAskAddrLlm with
        | some t =>
            { st with response := extract_answer env.jl t (S "**Response:**"),
                      next_step := some (S "await_address") }
        | none =>
            -- address-request llm.invoke raised; except branch at lines 549–560
            { st with response := PyVal.pyStr (provideAddrMsg language (joinComma valid_products)),
                      next_step := some (S "await_address") }

/-- `handle_new_order` (handlers.py lines 316–563). -/
def handle_new_order (st : ChatState) (env : TurnEnv) : ChatState :=
  match st.requested_items with
  | PyItems.riStr s => handle_new_order_core st env [trimQ s]
  | PyItems.riNone => { st with response := PyVal.pyStr (errOrderMsg st.language) }
  | PyItems.riList [] => { st with response := PyVal.pyStr (noProductsSpecifiedMsg st.language) }
  | PyItems.riList (h :: t) => handle_new_order_core st env (h :: t)

/-- `handle_address_input` (handlers.py lines 566–658). -/
def handle_address_input (st : ChatState) (env : TurnEnv) : ChatState :=
  let language := st.language
  let user_input := trimQ st.user_input
  let requested_items := st.requested_items
  if user_input = [] then
    { st with response := PyVal.pyStr (provideValidAddrMsg language (joinComma requested_items.asList)),
              next_step := some (S "await_address") }
  else if !requested_items.truthy then
    { st with response := PyVal.pyStr (noProductsSelectedMsg language), next_step := none }
  else
    let items := requested_items.asList
    let st := { st with trace := st.trace ++ [ApiCall.updateAddress user_input, ApiCall.newOrder items none] }
    match env.aiOrderResult with
    | Except.error _ =>
        { st with response := PyVal.pyStr (errCreateMsg language (joinComma items)) }
    | Except.ok order_id =>
        let st := { st with order_data := OrderData.odResult order_id }
        match env.aiConfirmLlm with
        | none =>
            -- confirmation llm.invoke raised; except branch at lines 647–655:
            -- the order was created but next_step / requested_items are left untouched
            { st with response := PyVal.pyStr (errCreateMsg language (joinComma items)) }
        | some t =>
            { st with response := extract_answer env.jl t (S "**Response:**"),
                      next_step := none, requested_items := PyItems.riList [],
                      address := PyVal.pyNone }

/-- `handle_greeting` (handlers.py lines 274–313); its LLM call sits in a
try whose except only logs, so the handler is total and the canned
message survives a raise or an untruthy extraction. -/
def handle_greeting (st : ChatState) (env : TurnEnv) : ChatState :=
  let canned := greetingMsg st.language
  let response :=
    match env.greetLlm with
    | some t =>
        let g := extract_answer env.jl t (S "**Response:**")
        if g.truthy then g else PyVal.pyStr canned
    | none => PyVal.pyStr canned
  { st with response := response }

/-- `handle_none` (handlers.py lines 224–271), same shape as `handle_greeting`. -/
def handle_none (st : ChatState) (env : TurnEnv) : ChatState :=
  let canned := clarifyMsg st.language
  let response :=
    match env.noneLlm with
    | some t =>
        let g := extract_answer env.jl t (S "**Response:**")
        if g.truthy then g else PyVal.pyStr canned
    | none => PyVal.pyStr canned
  { st with response := response }

/-- `handle_list_products` (handlers.py lines 150–221). -/
def handle_list_products (st : ChatState) (env : TurnEnv) : ChatState :=
  let language := st.language
  let st := { st with trace := st.trace ++ [ApiCall.listProducts] }
  let products := env.products
  if products = [] then
    { st with response := PyVal.pyStr (noCatalogMsg language) }
  else
    let cur := if language = S "arabic" then S "د.ت"
               else if language = S "french" then S "TND" else S "$"
    let product_list := joinComma
      (products.map (fun p => p.name ++ S " (" ++ p.price ++ S " " ++ cur ++ S ")"))
    let canned := byLang language
      (S "Voici nos produits : " ++ product_list ++ S ". Comment puis-je vous aider ?")
      (S "هذه منتجاتنا: " ++ product_list ++ S ". كيف يمكنني مساعدتك؟")
      (S "Here are our products: " ++ product_list ++ S ". How can I assist you?")
    let response :=
      match env.listLlm with
      | some t =>
          let g := extract_answer env.jl t (S "**Response:**")
          if g.truthy then g else PyVal.pyStr canned
      | none => PyVal.pyStr canned
    { st with response := response }

/-- `retrieve_order` (handlers.py lines 661–709).  The two prompt builds
(orders found / none found) post-process identically, so one completion
oracle serves both; the `except` branch issues its own LLM call (line
707), whose raise escapes the handler (`Except.error`). -/
def retrieve_order (st : ChatState) (env : TurnEnv) : Except Unit ChatState :=
  let st := { st with trace := st.trace ++ [ApiCall.getOrders] }
  let st := { st with order_data := OrderData.odOrders env.orders }
  match env.roLlm with
  | some t => Except.ok { st with response := extract_answer env.jl t (S "**Response:**") }
  | none =>
    match env.roErrLlm with
    | some t => Except.ok { st with response := extract_answer env.jl t (S "**Response:**") }
    | none => Except.error ()

/-- `claim_categories` (handlers.py lines 808–817); the same eight
strings as the parser's `valid_category`. -/
def claim_categories : List Str := valid_category

/-- The shared tail of every non-raising `handle_report_issue` path
(handlers.py lines 892–893): store the reply and clear
`next_step` / `issue_product`. -/
def riFinish (st : ChatState) (r : PyVal) : Except Unit ChatState :=
  Except.ok { st with response := r, next_step := none, issue_product := PyVal.pyNone }

/-- The except branch of `handle_report_issue`'s inner try (handlers.py
lines 877–890): its own `llm.invoke` can raise and escape. -/
def riExceptPath (st : ChatState) (env : TurnEnv) : Except Unit ChatState :=
  match env.riErrLlm with
  | none => Except.error ()
  | some t => riFinish st (extract_answer env.jl t (S "**Response:**"))

/-- `handle_report_issue` (handlers.py lines 712–895).  The first two LLM
calls (lines 727, 748) sit outside any try, so a raise escapes; inside
the try of lines 770–890 a raise reaches the except branch
(`riExceptPath`).  Lines 892–893 (`riFinish`) set `next_step = None` and
`issue_product = None` on every non-raising path. -/
def handle_report_issue (st : ChatState) (env : TurnEnv) : Except Unit ChatState :=
  if !st.issue_product.truthy || st.issue_product == PyVal.pyStr (S "none") then
    match env.riNoProdLlm with
    | none => Except.error ()
    | some t => riFinish st (extract_answer env.jl t (S "**Response:**"))
  else
    let st := { st with trace := st.trace ++ [ApiCall.getOrders] }
    let ordered_items := (env.orders.map (fun o => o.items)).flatten
    if ordered_items = [] then
      match env.riNoOrdersLlm with
      | none => Except.error ()
      | some t => riFinish st (extract_answer env.jl t (S "**Response:**"))
    else
      match env.riMatchLlm with
      | none => riExceptPath st env
      | some t =>
        match extract_answer env.jl t (S "**Products:**") with
        | PyVal.pyNone => riExceptPath st env  -- `None.lower()` raises, caught at line 877
        | v =>
          let matched_product :=
            match v with
            | PyVal.pyList (h :: _) => h
            | PyVal.pyList [] => S "none"
            | PyVal.pyStr s => s
            | PyVal.pyNone => S "none"     -- unreachable: pyNone matched above
          if lowerQ matched_product = S "none" ∨
             ¬ ordered_items.any (fun i => lowerQ matched_product == lowerQ i) then
            match env.riNoMatchLlm with
            | none => riExceptPath st env
            | some t2 => riFinish st (extract_answer env.jl t2 (S "**Response:**"))
          else
            match env.riCatLlm with
            | none => riExceptPath st env
            | some t2 =>
              let cat0 := extract_answer env.jl t2 (S "**Category:**")
              let cc0 : Option Str :=
                match cat0 with
                | PyVal.pyList (h :: _) => some h
                | PyVal.pyList [] => some (S "other")
                | PyVal.pyStr s => some s
                | PyVal.pyNone => none
              let claim_category :=
                match cc0 with
                | some c => if c ∈ claim_categories then c else S "other"
                | none => S "other"        -- Python `None not in claim_categories`
              let _ := claim_category
              let st := { st with trace := st.trace ++ [ApiCall.saveIssue] }
              match env.saveIssueResult with
              | Except.error _ => riExceptPath st env  -- `result["issue_id"]` raises KeyError
              | Except.ok _ =>
                match env.riConfirmLlm with
                | none => riExceptPath st env
                | some t3 => riFinish st (extract_answer env.jl t3 (S "**Response:**"))

/-- `route_next_step` (graph.py lines 69–74). -/
def route_next_step (st : ChatState) : Bool := st.next_step = some (S "await_address")

/-- One graph invocation (webhook lines 107–118 around graph.py's wiring):
strip the message into `user_input`, detect the language, classify,
route, run the selected handler, and — per graph.py lines 97–104 — chase
`handle_new_order` with `handle_address_input` within the same turn when
it set `next_step = "await_address"`.  `Except.error` means an exception
escaped a handler. -/
def turnE (st : ChatState) (msg : Str) (env : TurnEnv) : Except Unit ChatState :=
  let st0 := { st with user_input := trimQ msg }
  let st1 := detect_language st0 env
  let st2 := process_input st1 env
  match route_intent st2 with
  | Route.rAddressInput => Except.ok (handle_address_input st2 env)
  | Route.rListProducts => Except.ok (handle_list_products st2 env)
  | Route.rGreeting => Except.ok (handle_greeting st2 env)
  | Route.rNone => Except.ok (handle_none st2 env)
  | Route.rNewOrder =>
      let st3 := handle_new_order st2 env
      if route_next_step st3 then Except.ok (handle_address_input st3 env)
      else Except.ok st3
  | Route.rRetrieveOrder => retrieve_order st2 env
  | Route.rReportIssue => handle_report_issue st2 env

/-- A full webhook turn: when an exception escapes the graph the webhook
never stores the result, so the retained conversation state is unchanged
(webhook lines 115–118 vs the except branch at 152). -/
def turn (st : ChatState) (msg : Str) (env : TurnEnv) : ChatState :=
  match turnE st msg env with
  | Except.ok st2 => st2
  | Except.error _ => st

/-- The conversation state created on first contact (webhook lines 94–105). -/
def initialState : ChatState :=
  { user_input := [], original_input := [], language := S "english",
    intent := PyVal.pyNone, next_step := none, requested_items := PyItems.riNone,
    issue_product := PyVal.pyNone, address := PyVal.pyStr (S "unknown"),
    response := PyVal.pyStr (S ""), order_data := OrderData.odNone, trace := [] }

/-- Run a script of turns from a state. -/
def run (st : ChatState) : List (Str × TurnEnv) → ChatState
  | [] => st
  | (msg, env) :: rest => run (turn st msg env) rest

/-! ## `logic/sql.py` — the natural-language-to-SQL generation loop

`convert_nl_to_sql` receives the raw state as a plain dict and rebuilds
`state_obj = AgentState(**state)`; the terminal branch (line 44) and the
"non-retryable" branch (lines 76–78) call `state.model_dump()` /
`state.sql_query` on the *dict* `state`, which raises `AttributeError`.
A missing ```sql block raises `ValueError` (line 122).  Both raises are
modelled in `Except PyError`.
-/

/-- The relevant fields of `logic/agent_state.py`'s `AgentState`
(pydantic defaults: `sql_query = []`, `attempts = 0`, `sql_error = False`,
`sql_error_message = ""`, `row_count = 0`).  `Option` distinguishes a
Python `None` from an empty value where the code assigns both. -/
structure SqlAgentState where
  question : Str
  sql_query : Option (List Str)
  attempts : Nat
  sql_error : Bool
  sql_error_message : Option Str
  row_count : Nat
  product_exists : Bool
  corrected_product_items : List Str
deriving DecidableEq, Repr

/-- Exceptions `convert_nl_to_sql` can raise. -/
inductive PyError where
  | attributeError : PyError
  | valueError : Str → PyError
deriving DecidableEq, Repr

/-- Text before the first occurrence of `pat` (the whole text if absent). -/
def beforeFirstQ (s pat : Str) : Str := (splitOnQ s pat).headD []

/-- Worker for `removeThink` (fuel-bounded; each removal shortens the text). -/
def removeThinkGo : Nat → Str → Str
  | 0, s => s
  | fuel + 1, s =>
    match afterFirstQ s (S "<think>") with
    | none => s
    | some after =>
      match afterFirstQ after (S "</think>") with
      | none => s
      | some rest => beforeFirstQ s (S "<think>") ++ removeThinkGo fuel rest

/-- `re.sub(r"<think>.*?</think>", "", text, flags=re.DOTALL)` (sql.py lines 108–110). -/
def removeThink (s : Str) : Str := removeThinkGo (s.length + 1) s

/-- Worker for `sqlBlocks`. -/
def sqlBlocksGo : Nat → Str → List Str
  | 0, _ => []
  | fuel + 1, s =>
    match afterFirstQ s (S "```sql") with
    | none => []
    | some after =>
      match afterFirstQ after (S "```") with
      | none => []
      | some rest =>
        let q := trimQ (beforeFirstQ after (S "```"))
        (if q = [] then [] else [q]) ++ sqlBlocksGo fuel rest

/-- `re.findall(r"```sql\s*(.+?)\s*```", text, re.DOTALL)` followed by the
strip-and-keep-non-empty loop (sql.py lines 113–119): each match is the
stripped text between a ```sql fence and the next ``` fence, scanning
left to right without overlap. -/
def sqlBlocks (s : Str) : List Str := sqlBlocksGo (s.length + 1) s

/-- Python truthiness of `sql_error_message` (`None` and `""` are falsy). -/
def truthyMsg : Option Str → Bool
  | none => false
  | some s => !s.isEmpty

/-- The generation tail of `convert_nl_to_sql` (sql.py lines 94–131):
stream the completion, drop `<think>` blocks, extract ```sql blocks
(`ValueError` when none), then compute
`new_attempts = attempts + 1 if sql_error and "does not return rows" not in
sql_error_message.lower() else 0` — where a `None` message would raise
`AttributeError` on `.lower()`. -/
def convert_generate (state : SqlAgentState) (genText : Str) : Except PyError SqlAgentState :=
  let full_sql_query := trimQ (removeThink (trimQ genText))
  let sql_queries := sqlBlocks full_sql_query
  if sql_queries = [] then
    Except.error (PyError.valueError (S "No SQL queries found"))
  else
    match state.sql_error, state.sql_error_message with
    | true, none => Except.error PyError.attributeError
    | true, some m =>
        let new_attempts :=
          if !containsQ (lowerQ m) (S "does not return rows") then state.attempts + 1 else 0
        Except.ok { state with sql_query := some sql_queries, attempts := new_attempts }
    | false, _ =>
        Except.ok { state with sql_query := some sql_queries, attempts := 0 }

/-- `convert_nl_to_sql` (sql.py lines 11–131); `genText` is the streamed
completion oracle for this invocation. -/
def convert_nl_to_sql (state : SqlAgentState) (genText : Str) : Except PyError SqlAgentState :=
  if !state.product_exists || state.corrected_product_items == [] then
    Except.ok { state with sql_query := none }
  else if state.attempts ≥ 3 then
    -- line 44: `state.model_dump()` on the plain dict parameter
    Except.error PyError.attributeError
  else if state.sql_error && truthyMsg state.sql_error_message then
    if state.row_count = 0 then
      -- lines 76–78: `state.model_dump()` / `state.sql_query` on the plain dict
      Except.error PyError.attributeError
    else
      convert_generate state genText
  else
    convert_generate state genText

/-- `execute_sql` (sql.py lines 134–162); `execResult` is the engine
outcome for the query (`.ok rowcount` | `.error message`). -/
def execute_sql (state : SqlAgentState) (execResult : Except Str Nat) : SqlAgentState :=
  let query := (state.sql_query.getD []).headD []
  if query = [] then
    { state with sql_error := true, sql_error_message := some (S "No SQL query provided") }
  else
    match execResult with
    | Except.ok rc =>
        { state with sql_error := false, sql_error_message := none, row_count := rc }
    | Except.error e =>
        { state with sql_error := true, sql_error_message := some e }

/-- Whether one `convert_nl_to_sql` invocation reaches the generation
call (i.e. consumes an LLM `generate`): the skip, terminal and
non-retryable branches do not. -/
def convertGenerates (state : SqlAgentState) : Bool :=
  state.product_exists && state.corrected_product_items != [] &&
  decide (state.attempts < 3) &&
  !(state.sql_error && truthyMsg state.sql_error_message && decide (state.row_count = 0))

/-- Modelled from the spec: the repository exposes `convert_nl_to_sql`
and `execute_sql` only as individual LangServe nodes — the retry driver
that feeds an execution failure back into generation is not under the
sources.  Per spec §4.3, the loop generates, validates/executes, and on
failure folds the error back and generates again until success or a
terminal failure, sequentially.  `gen`/`exec` give the completion and
engine outcome of each round; the second component counts `generate`
calls. -/
def sqlLoop (gen : Nat → Str) (exec : Nat → Except Str Nat) :
    Nat → SqlAgentState → Nat → (Except PyError SqlAgentState) × Nat
  | 0, st, gens => (Except.ok st, gens)
  | fuel + 1, st, gens =>
    let gens2 := gens + (if convertGenerates st then 1 else 0)
    match convert_nl_to_sql st (gen gens) with
    | Except.error e => (Except.error e, gens2)
    | Except.ok st1 =>
      match st1.sql_query with
      | none => (Except.ok st1, gens2)
      | some _ =>
        let st2 := execute_sql st1 (exec gens)
        if st2.sql_error then sqlLoop gen exec fuel st2 gens2
        else (Except.ok st2, gens2)

/-- A fresh `AgentState` for a question whose product items resolved
(pydantic defaults elsewhere). -/
def sqlState0 : SqlAgentState :=
  { question := S "Make a new order for x", sql_query := some [], attempts := 0,
    sql_error := false, sql_error_message := some [], row_count := 0,
    product_exists := true, corrected_product_items := [S "x"] }

/-- A generator that always produces one well-fenced SQL block. -/
def sqlGenAlways : Nat → Str :=
  fun _ => S "```sql\nINSERT INTO orders (user_id, product_id) SELECT 1, 2\n```"

/-- An executor that always fails with a plain SQL error. -/
def sqlExecAlwaysFails : Nat → Except Str Nat :=
  fun _ => Except.error (S "syntax error at or near INSERT")

/-! ## `chatbot/api.py` — `api_call`

The whole body runs inside `with SessionLocal() as session: try: …
except Exception as e: session.rollback(); return {"error": str(e)}`.
Uncommitted ORM changes are pending until `session.commit()`; a raise
therefore leaves the committed store untouched (every endpoint commits
at most once, with nothing but a `return` after it), and the outer
handler converts the exception into an `{"error": …}` dict.  `Db` below
is the committed store; raise points are driven by `ApiEnv`.
-/

/-- A row of the `users` table. -/
structure UserRec where
  phone_number : Str
  name : Str
  address : Str
deriving DecidableEq, Repr

/-- The issue payload stored by `save_issue`. -/
structure IssuePayload where
  product : Str
  description : Str
  name : Str
  phone_number : Str
  status : Str
  category : Str
deriving DecidableEq, Repr

/-- The `details` JSON of a `Claim` row per claim type. -/
inductive ClaimDetails where
  | orderDetails : Str → List Str → List Str → ClaimDetails
  | addressDetails : Str → ClaimDetails
  | issueDetails : IssuePayload → ClaimDetails
deriving DecidableEq, Repr

/-- A row of the `claims` table (`id` assigned at commit). -/
structure ClaimRec where
  id : Nat
  user_phone : Str
  ctype : Str
  details : ClaimDetails
  status : Str
deriving DecidableEq, Repr

/-- The committed database store. -/
structure Db where
  users : List UserRec
  claims : List ClaimRec
  nextClaimId : Nat
deriving DecidableEq, Repr

/-- `api_call`'s `payload` dict; `none` = key absent (so that subscripting
it raises `KeyError`).  `order_items` stands for
`payload["order_data"]["items"]`. -/
structure Payload where
  user_id : Option Str
  name : Option Str
  address : Option Str
  order_items : Option (List Str)
  issue : Option IssuePayload

/-- A Converty product as fetched (`_id` / `name` / `price` may be absent). -/
structure ConvertyProduct where
  pid : Option Str
  name : Option Str
  price : Option Str
deriving DecidableEq, Repr

/-- External collaborators and injected raise points for one `api_call`. -/
structure ApiEnv where
  queryRaises : Bool
  commitRaises : Bool
  convertyOrders : Except Str (List OrderRec)
  convertyProducts : Except Str (List ConvertyProduct)
  mapProductId : Str → Except Str Str
  createOrder : Except Str (Option Str)

/-- Values `api_call` returns. -/
inductive ApiRes where
  | dict : List (Str × Str) → ApiRes
  | ordersRes : List OrderRec → ApiRes
  | productsRes : List (Str × Str × Str) → ApiRes
deriving DecidableEq, Repr

/-- The returned dict carries an `"error"` key. -/
def hasErrorKey : ApiRes → Bool
  | ApiRes.dict entries => entries.any (fun e => e.1 == S "error")
  | _ => false

/-- Decimal rendering of a `Nat` (fuel-bounded so it kernel-computes). -/
def natToStrGo : Nat → Nat → Str
  | 0, _ => []
  | fuel + 1, n => if n < 10 then [Nat.digitChar n]
                   else natToStrGo fuel (n / 10) ++ [Nat.digitChar (n % 10)]

/-- Decimal rendering of a `Nat`. -/
def natToStr (n : Nat) : Str := natToStrGo (n + 1) n

/-- `map_product_name_to_id` over the cart items; the first `ValueError`
aborts the comprehension (api.py lines 88–94). -/
def mapAll (f : Str → Except Str Str) : List Str → Except Str (List Str)
  | [] => Except.ok []
  | x :: xs =>
    match f x with
    | Except.error e => Except.error e
    | Except.ok y =>
      match mapAll f xs with
      | Except.error e => Except.error e
      | Except.ok ys => Except.ok (y :: ys)

/-- The endpoints `api_call` dispatches on. -/
def knownEndpoints : List Str :=
  [S "get_user", S "get_orders", S "list_products", S "new_order",
   S "update_address", S "save_issue"]

/-- The `try:` body of `api_call` (api.py lines 29–161): `Except.error`
is an exception reaching the outer handler (with no commit performed,
hence the input `db` untouched); inner `try`s that swallow errors return
normally. -/
def api_call_inner (endpoint : Str) (payload : Payload) (db : Db) (env : ApiEnv) :
    Except Str (Db × ApiRes) :=
  if endpoint = S "get_user" then
    match payload.user_id with
    | none => Except.error (S "KeyError: user_id")
    | some user_id =>
      let name := payload.name.getD (S "Unknown User")
      if env.queryRaises then Except.error (S "database error")
      else
        match db.users.find? (fun u => u.phone_number == user_id) with
        | some user =>
            Except.ok (db, ApiRes.dict [(S "name", user.name),
              (S "address", if user.address = [] then S "unknown" else user.address)])
        | none =>
            if env.commitRaises then Except.error (S "database error")
            else Except.ok ({ db with users := db.users ++ [⟨user_id, name, S "unknown"⟩] },
                            ApiRes.dict [(S "name", name), (S "address", S "unknown")])
  else if endpoint = S "get_orders" then
    match payload.user_id with
    | none => Except.error (S "KeyError: user_id")
    | some _ =>
      match env.convertyOrders with
      | Except.ok orders => Except.ok (db, ApiRes.ordersRes orders)
      | Except.error _ => Except.ok (db, ApiRes.ordersRes [])
  else if endpoint = S "list_products" then
    match env.convertyProducts with
    | Except.ok products =>
        Except.ok (db, ApiRes.productsRes (products.enum.map (fun pi =>
          (pi.2.pid.getD (S "p" ++ natToStr (pi.1 + 1)),
           pi.2.name.getD (S "Unknown Product"),
           pi.2.price.getD (S "0.0")))))
    | Except.error _ => Except.ok (db, ApiRes.productsRes [])
  else if endpoint = S "new_order" then
    match payload.user_id, payload.order_items with
    | none, _ => Except.error (S "KeyError: user_id")
    | some _, none => Except.error (S "KeyError: order_data")
    | some user_id, some items =>
      match mapAll env.mapProductId items with
      | Except.error e => Except.ok (db, ApiRes.dict [(S "error", e)])
      | Except.ok product_ids =>
        if env.queryRaises then Except.error (S "database error")
        else
          match db.users.find? (fun u => u.phone_number == user_id) with
          | none => Except.error (S "User not found")
          | some user =>
            match env.createOrder with
            | Except.error e => Except.ok (db, ApiRes.dict [(S "error", e)])
            | Except.ok none =>
                Except.ok (db, ApiRes.dict
                  [(S "error", S "Order creation failed: No order ID returned")])
            | Except.ok (some order_id) =>
                if env.commitRaises then
                  Except.ok (db, ApiRes.dict [(S "error", S "database error")])
                else
                  Except.ok ({ db with
                      claims := db.claims ++ [⟨db.nextClaimId, user.phone_number, S "order",
                        ClaimDetails.orderDetails order_id items product_ids, S "pending"⟩],
                      nextClaimId := db.nextClaimId + 1 },
                    ApiRes.dict [(S "status", S "success"),
                                 (S "order_id", S "ord" ++ natToStr db.nextClaimId)])
  else if endpoint = S "update_address" then
    match payload.user_id, payload.address with
    | none, _ => Except.error (S "KeyError: user_id")
    | some _, none => Except.error (S "KeyError: address")
    | some user_id, some address =>
      if env.queryRaises then Except.error (S "database error")
      else
        match db.users.find? (fun u => u.phone_number == user_id) with
        | none => Except.error (S "User not found")
        | some user =>
          if env.commitRaises then Except.error (S "database error")
          else Except.ok ({ db with
              users := db.users.map (fun u =>
                if u.phone_number == user_id then { u with address := address } else u),
              claims := db.claims ++ [⟨db.nextClaimId, user.phone_number, S "address",
                ClaimDetails.addressDetails address, S "completed"⟩],
              nextClaimId := db.nextClaimId + 1 },
            ApiRes.dict [(S "status", S "address_updated")])
  else if endpoint = S "save_issue" then
    match payload.user_id, payload.issue with
    | none, _ => Except.error (S "KeyError: user_id")
    | some _, none => Except.error (S "KeyError: issue")
    | some user_id, some issue =>
      if env.queryRaises then Except.error (S "database error")
      else
        match db.users.find? (fun u => u.phone_number == user_id) with
        | none => Except.error (S "User not found")
        | some user =>
          if env.commitRaises then Except.error (S "database error")
          else Except.ok ({ db with
              claims := db.claims ++ [⟨db.nextClaimId, user.phone_number, S "issue",
                ClaimDetails.issueDetails issue, S "pending"⟩],
              nextClaimId := db.nextClaimId + 1 },
            ApiRes.dict [(S "status", S "success"),
                         (S "issue_id", S "iss" ++ natToStr db.nextClaimId)])
  else
    Except.ok (db, ApiRes.dict [(S "error", S "Invalid endpoint")])

/-- `api_call` (api.py lines 26–166): the outer except rolls the session
back (pending changes discarded, committed store untouched) and returns
`{"error": str(e)}`; by construction the function is total — no
exception propagates to the caller. -/
def api_call (endpoint : Str) (payload : Payload) (db : Db) (env : ApiEnv) : Db × ApiRes :=
  match api_call_inner endpoint payload db env with
  | Except.ok r => r
  | Except.error e => (db, ApiRes.dict [(S "error", e)])

/-- The closed enumerated domain the spec assigns to a parser key. -/
def closedDomain (key : Str) : List Str :=
  if key = S "**Intent:**" then valid_intents
  else if key = S "**Category:**" then valid_category
  else valid_languages

/-- The state invariant of spec §3: an address is only awaited while
there is a non-empty item list to ship. -/
def AwaitInv (st : ChatState) : Prop :=
  st.next_step = some (S "await_address") →
    ∃ l, st.requested_items = PyItems.riList l ∧ l ≠ []

/-! ## Concrete scenarios used by counterexamples and witnesses -/

/-- A baseline turn environment: every LLM call raises, every API result
is an error, the catalog and the order list are empty. -/
def envBase : TurnEnv :=
  { jl := jsonNoParse, detectedLanguage := S "english", classifyLlm := none,
    getUserAddress := S "none", products := [], matchLlm := none,
    noOrderResult := Except.error (S "api down"), noConfirmLlm := none,
    noAskAddrLlm := none, aiOrderResult := Except.error (S "api down"),
    aiConfirmLlm := none, greetLlm := none, noneLlm := none, listLlm := none,
    orders := [], roLlm := none, roErrLlm := none, riNoProdLlm := none,
    riNoOrdersLlm := none, riMatchLlm := none, riNoMatchLlm := none,
    riCatLlm := none, saveIssueResult := Except.error (S "api down"),
    riConfirmLlm := none, riErrLlm := none }

/-- A conversation state waiting for the delivery address of one item. -/
def awaitState : ChatState :=
  { initialState with next_step := some (S "await_address"),
                      requested_items := PyItems.riList [S "Lamp"] }

/-- Environment in which the address-turn order creation and the
confirmation completion both succeed. -/
def envOrderOk : TurnEnv :=
  { envBase with aiOrderResult := Except.ok (S "ord1"),
                 aiConfirmLlm := some (S "**Response:** Done!") }

/-- `json.loads` oracle for the classification completion of the
new-order scenario: the fenced block `X` parses to a JSON object whose
`intent` is `new_order` and whose `**Items:**` entry is `Lamp` (the only
shape through which `process_input` can obtain a non-empty item list,
since the line-tag path never handles `**Items:**`). -/
def jlOrder : Str → Option JObj := fun b =>
  if b = S "X" then
    some ⟨[(S "intent", JVal.jStr (S "new_order")), (S "**Items:**", JVal.jStr (S "Lamp"))]⟩
  else none

/-- Environment for a new-order turn with no address on file: the order
flow resolves `Lamp`, asks for the address, and the chained
`handle_address_input` fails to create the order, so the turn ends in
`await_address`. -/
def envNewOrderAwait : TurnEnv :=
  { envBase with
      jl := jlOrder,
      classifyLlm := some (S "```json X ```"),
      getUserAddress := S "none",
      products := [⟨S "Lamp", S "23"⟩],
      matchLlm := some (S "**Products:** Lamp"),
      noAskAddrLlm := some (S "**Response:** Please provide your address"),
      aiOrderResult := Except.error (S "api down") }

/-- State entering `handle_new_order` with one resolved-items request. -/
def c9State : ChatState :=
  { initialState with requested_items := PyItems.riList [S "Lamp"] }

/-- Environment for the C9 scenario: the user has an address on file,
the catalog has the item, order creation succeeds, and the confirmation
completion is `"ok"` — well-formed text that simply lacks the
`**Response:**` tag. -/
def c9Env : TurnEnv :=
  { envBase with getUserAddress := S "Tunis",
                 products := [⟨S "Lamp", S "23"⟩],
                 matchLlm := some (S "**Products:** Lamp"),
                 noOrderResult := Except.ok (S "ord1"),
                 noConfirmLlm := some (S "ok") }

/-- An empty payload (every key absent). -/
def payload0 : Payload :=
  { user_id := none, name := none, address := none, order_items := none, issue := none }

/-- A small committed store. -/
def db0 : Db := { users := [], claims := [], nextClaimId := 1 }

/-- A quiet API environment (no injected raise). -/
def apiEnv0 : ApiEnv :=
  { queryRaises := false, commitRaises := false, convertyOrders := Except.ok [],
    convertyProducts := Except.ok [], mapProductId := fun _ => Except.error (S "Invalid product name"),
    createOrder := Except.error (S "api down") }


/-! ## Helper lemmas -/

/-- A prefix of a list fixed by `dropWhile` is itself fixed. -/
theorem dropWhile_prefix_eq_self (p : Char → Bool) {u v : List Char}
    (hu : u.dropWhile p = u) (hpre : v <+: u) : v.dropWhile p = v := by
  cases v with
  | nil => rfl
  | cons a t =>
    obtain ⟨w, hw⟩ := hpre
    cases u with
    | nil => simp at hw
    | cons b s =>
      have hab : a = b := by injection hw
      subst hab
      by_cases hpb : p a
      · exfalso
        rw [List.dropWhile_cons] at hu
        simp only [hpb, if_true] at hu
        have hle : (s.dropWhile p).length ≤ s.length :=
          (List.dropWhile_sublist p).length_le
        have hlen := congrArg List.length hu
        simp at hlen
        omega
      · rw [List.dropWhile_cons]
        simp [hpb]

/-- `strip` is idempotent. -/
theorem trimQ_idem (s : Str) : trimQ (trimQ s) = trimQ s := by
  unfold trimQ
  set p := Char.isWhitespace with hp
  set u := s.dropWhile p with hu
  set v := u.reverse.dropWhile p with hv
  have h1 : v.reverse.dropWhile p = v.reverse := by
    apply dropWhile_prefix_eq_self p (u := u)
    · rw [hu]; exact List.dropWhile_idempotent p s
    · have h2 : v <:+ u.reverse := by rw [hv]; exact List.dropWhile_suffix p
      have h3 := List.reverse_prefix.mpr h2
      simpa using h3
  rw [h1, List.reverse_reverse, hv, List.dropWhile_idempotent]

/-- Every element of a `splitClean` result is a non-empty, stripped segment. -/
theorem splitClean_mem {v s : Str} (h : s ∈ splitClean v) : s ≠ [] ∧ trimQ s = s := by
  unfold splitClean at h
  split at h
  · simp at h
  · simp only [List.mem_filter, List.mem_map] at h
    obtain ⟨⟨seg, _, hseg⟩, hne⟩ := h
    refine ⟨by simpa using hne, ?_⟩
    rw [← hseg, trimQ_idem]

/-! ## C1 — closed-domain normalization of `Intent` / `Category` / `Language` -/

/-- C1, counterexample: the claim says an out-of-domain `Category` value
is normalized to the fallback `"other"`; the code normalizes it to the
string `"none"` (llm.py line 180), which is itself outside the Category
domain — and likewise `Language` falls back to `"none"`, not
`"english"` (line 183). -/
theorem c1_category_fallback_counterexample :
    extract_answer jsonNoParse (S "**Category:** damaged") (S "**Category:**")
      = PyVal.pyStr (S "none") ∧
    PyVal.pyStr (S "none") ≠ PyVal.pyStr (S "other") ∧
    extract_answer jsonNoParse (S "**Language:** spanish") (S "**Language:**")
      = PyVal.pyStr (S "none") ∧
    PyVal.pyStr (S "none") ≠ PyVal.pyStr (S "english") ∧
    (S "none") ∉ valid_category := by
  refine ⟨by decide, by decide, by decide, by decide, by decide⟩

/-- C1, amended: on any completion without a fenced ```json block, parsing
`Intent` / `Category` / `Language` never propagates a raw out-of-domain
value: the result is either Python `None` (key absent), an in-domain
string, or the fixed sentinel `"none"` — the fallback is `"none"` for
all three keys, not `"other"`/`"english"`. -/
theorem c1_closed_domain_amended (jl : Str → Option JObj) (response key : Str)
    (hkey : key ∈ [S "**Intent:**", S "**Category:**", S "**Language:**"])
    (hnj : jsonBlock response = none) :
    extract_answer jl response key = PyVal.pyNone ∨
      ∃ s, extract_answer jl response key = PyVal.pyStr s ∧
        (s ∈ closedDomain key ∨ s = S "none") := by
  have hline : extract_answer jl response key = extract_answer_line response key := by
    unfold extract_answer; rw [hnj]
  rw [hline]
  simp only [List.mem_cons, List.not_mem_nil, or_false] at hkey
  rcases hkey with hk | hk | hk <;> subst hk <;> unfold extract_answer_line
  · by_cases hc : containsQ response (S "**Intent:**") = true
    · rw [if_pos hc, if_pos rfl]
      split
      · rename_i hmem
        exact Or.inr ⟨_, rfl, Or.inl (by simpa [closedDomain] using hmem)⟩
      · exact Or.inr ⟨_, rfl, Or.inr rfl⟩
    · rw [if_neg hc]; exact Or.inl rfl
  · by_cases hc : containsQ response (S "**Category:**") = true
    · rw [if_pos hc, if_neg (by decide), if_neg (by decide), if_neg (by decide), if_pos rfl]
      split
      · rename_i hmem
        exact Or.inr ⟨_, rfl, Or.inl (by simpa [closedDomain] using hmem)⟩
      · exact Or.inr ⟨_, rfl, Or.inr rfl⟩
    · rw [if_neg hc]; exact Or.inl rfl
  · by_cases hc : containsQ response (S "**Language:**") = true
    · rw [if_pos hc, if_neg (by decide), if_neg (by decide), if_neg (by decide),
          if_neg (by decide), if_pos rfl]
      split
      · rename_i hmem
        exact Or.inr ⟨_, rfl, Or.inl (by simpa [closedDomain] using hmem)⟩
      · exact Or.inr ⟨_, rfl, Or.inr rfl⟩
    · rw [if_neg hc]; exact Or.inl rfl

/-- C1, witness for the amended theorem at a concrete completion. -/
theorem c1_closed_domain_amended_witness :
    extract_answer jsonNoParse (S "**Category:** damaged") (S "**Category:**") = PyVal.pyNone ∨
      ∃ s, extract_answer jsonNoParse (S "**Category:** damaged") (S "**Category:**")
          = PyVal.pyStr s ∧
        (s ∈ closedDomain (S "**Category:**") ∨ s = S "none") :=
  c1_closed_domain_amended jsonNoParse (S "**Category:** damaged") (S "**Category:**")
    (by decide) (by decide)

/-! ## C3 — the resolution step returns one result per requested name -/

/-- C3, counterexample: with an empty catalog (`api_call("list_products")`
failed or returned nothing) the matching block of `handle_new_order` is
skipped entirely and `matched_products` stays `[]` — zero results for a
one-element request, not `len(names)`. -/
theorem c3_resolution_length_counterexample :
    matchRequested (some (PyVal.pyList [S "x"])) [S "a"] [] = PyVal.pyList [] ∧
    (matchRequested (some (PyVal.pyList [S "x"])) [S "a"] []).seqLen ≠ [S "a"].length := by
  refine ⟨by decide, by decide⟩

/-- C3, amended: whenever the request list and the catalog are both
non-empty, the resolution step yields exactly `len(requested)` results —
whatever the matching LLM produced (a list, a scalar string, Python
`None`, or a raised call): truncation, `"none"`-padding and the
`except` fallback all normalize the length. -/
theorem c3_resolution_length_amended (o : Option PyVal) (names productNames : List Str)
    (h1 : names ≠ []) (h2 : productNames ≠ []) :
    (matchRequested o names productNames).seqLen = names.length := by
  unfold matchRequested
  rw [if_pos ⟨h1, h2⟩]
  cases o with
  | none => simp [PyVal.seqLen]
  | some v =>
    cases v with
    | pyNone => simp [truncPadMatched, PyVal.seqLen]
    | pyList l =>
      simp only [truncPadMatched]
      have htake : (l.take names.length).length ≤ names.length := by
        simp [List.length_take]
      split
      · simp only [PyVal.seqLen, List.length_append, List.length_replicate]
        omega
      · rename_i hcond
        simp only [Bool.or_eq_true, List.isEmpty_iff, decide_eq_true_eq, not_or] at hcond
        simp only [PyVal.seqLen]
        omega
    | pyStr s =>
      simp only [truncPadMatched]
      have htake : (s.take names.length).length ≤ names.length := by
        simp [List.length_take]
      split
      · simp [PyVal.seqLen]
      · rename_i hcond
        simp only [Bool.or_eq_true, List.isEmpty_iff, decide_eq_true_eq, not_or] at hcond
        simp only [PyVal.seqLen]
        omega

/-- C3, witness for the amended theorem on a concrete call. -/
theorem c3_resolution_length_amended_witness :
    (matchRequested (some (PyVal.pyStr (S "Lamp"))) [S "a", S "b", S "c"]
      [S "Lamp"]).seqLen = [S "a", S "b", S "c"].length :=
  c3_resolution_length_amended (some (PyVal.pyStr (S "Lamp")))
    [S "a", S "b", S "c"] [S "Lamp"] (by decide) (by decide)

/-! ## C4 — the self-correcting SQL generation loop -/

/-- C4: with a generator that always produces a fenced SQL block and an
executor that always fails, the loop does not make three `generate`
calls and return a terminal failure: on re-entry after the first
failure, `row_count == 0` (its pydantic default — a failing execution
never sets it) sends `convert_nl_to_sql` into the "non-retryable"
branch, which calls `model_dump()` on the plain dict `state` (sql.py
line 76) and crashes with `AttributeError` after exactly one `generate`
call.  (The terminal branch at line 44 has the same dict/`model_dump`
slip, and `new_attempts` resets to 0 on the error-free first pass, so
even without the crash the `attempts >= 3` exit could only fire after a
fourth `generate` call.) -/
theorem c4_sql_loop_code_bug :
    sqlLoop sqlGenAlways sqlExecAlwaysFails 6 sqlState0 0
      = (Except.error PyError.attributeError, 1) ∧ (1 : Nat) ≠ 3 :=
  ⟨by rfl, by decide⟩

/-! ## C6 — the `**Items:**` round-trip -/

/-- C6: parsing `**Items:**` out of the documented round-trip text yields
Python `None`, not `["a","b"]` — `extract_answer` has no branch for the
`**Items:**` key, so it falls off the end of the function (llm.py
lines 139–192) even though its own prompt format and `process_input`'s
split-into-list code expect a value for that key. -/
theorem c6_items_roundtrip_code_bug :
    extract_answer jsonNoParse
      (S "**Intent:** new_order\n**Items:** a,b\n**IssueProduct:** none\n**Address:** none")
      (S "**Items:**") = PyVal.pyNone ∧
    PyVal.pyNone ≠ PyVal.pyList [S "a", S "b"] := by
  refine ⟨by decide, by decide⟩

/-! ## C7 — list-valued keys -/

/-- C7, counterexample: a bare `none` under `**Products:**` parses to the
one-element list `["none"]`, not to `[]` — the comprehension at llm.py
lines 156–161 strips and filters segments but never special-cases
`none` (downstream code filters the `"none"` sentinel instead). -/
theorem c7_list_keys_counterexample :
    extract_answer jsonNoParse (S "**Products:** none") (S "**Products:**")
      = PyVal.pyList [S "none"] ∧
    PyVal.pyList [S "none"] ≠ PyVal.pyList [] := by
  refine ⟨by decide, by decide⟩

/-- C7, amended: for the `**Products:**` and `**IssueProduct:**` keys
(line-tag interpretation), a comma-separated scalar explodes into a list
of stripped segments with empty/whitespace-only segments dropped, and an
empty value yields `[]`; but a bare `none` yields `["none"]` (the
no-match sentinel, filtered by callers, never by the parser), and the
`**Items:**` key is not list-parsed at all. -/
theorem c7_list_keys_amended :
    (∀ (jl : Str → Option JObj) (response key : Str),
      key ∈ [S "**Products:**", S "**IssueProduct:**"] →
      jsonBlock response = none → containsQ response key = true →
      ∃ l, extract_answer jl response key = PyVal.pyList l ∧
        ∀ s ∈ l, s ≠ [] ∧ trimQ s = s) ∧
    extract_answer jsonNoParse (S "**Products:** ") (S "**Products:**") = PyVal.pyList [] ∧
    extract_answer jsonNoParse (S "**Products:** none") (S "**Products:**")
      = PyVal.pyList [S "none"] ∧
    extract_answer jsonNoParse (S "x **Items:** a,b") (S "**Items:**") = PyVal.pyNone := by
  refine ⟨?_, by decide, by decide, by decide⟩
  intro jl response key hkey hnj hck
  have hline : extract_answer jl response key = extract_answer_line response key := by
    unfold extract_answer; rw [hnj]
  rw [hline]
  simp only [List.mem_cons, List.not_mem_nil, or_false] at hkey
  unfold extract_answer_line
  rw [if_pos hck]
  rcases hkey with hk | hk <;> subst hk
  · rw [if_neg (by decide), if_pos rfl]
    exact ⟨_, rfl, fun s hs => splitClean_mem hs⟩
  · rw [if_neg (by decide), if_neg (by decide), if_pos rfl]
    exact ⟨_, rfl, fun s hs => splitClean_mem hs⟩

/-- C7, witness for the amended theorem at a concrete completion. -/
theorem c7_list_keys_amended_witness :
    ∃ l, extract_answer jsonNoParse (S "**Products:** a, b ,,") (S "**Products:**")
        = PyVal.pyList l ∧ ∀ s ∈ l, s ≠ [] ∧ trimQ s = s :=
  c7_list_keys_amended.1 jsonNoParse (S "**Products:** a, b ,,") (S "**Products:**")
    (by decide) (by decide) (by decide)

/-! ## C8 — the parser's failure mode -/

/-- C8: when neither the fenced-block nor the line-tag interpretation
matches, `extract_answer` does not return the documented default — it
falls off the end of the function and returns Python `None` (an absent
value), although its own warning log at llm.py lines 189–191 announces
"Defaulting to 'none' or []".  (It does hold that no exception is
raised: the embedded parser is a total function.) -/
theorem c8_parser_default_code_bug :
    extract_answer jsonNoParse (S "garbage") (S "**Intent:**") = PyVal.pyNone ∧
    PyVal.pyNone ≠ PyVal.pyStr (S "none") ∧
    extract_answer jsonNoParse (S "garbage") (S "**Products:**") = PyVal.pyNone ∧
    PyVal.pyNone ≠ PyVal.pyList [] := by
  refine ⟨by decide, by decide, by decide, by decide⟩

/-! ## C9 — every handler branch must set a non-empty reply -/

/-- C9: on the fully successful existing-address path of
`handle_new_order`, the reply is the unguarded
`extract_answer(response, "**Response:**")` (handlers.py line 524); a
confirmation completion lacking the `**Response:**` tag therefore
leaves `state["response"] = None` — an empty reply on a successful
order. -/
theorem c9_empty_reply_code_bug :
    (handle_new_order c9State c9Env).response = PyVal.pyNone ∧
    PyVal.truthy (handle_new_order c9State c9Env).response = false ∧
    (handle_new_order c9State c9Env).next_step = none := by
  refine ⟨by decide, by decide, by decide⟩


/-! ## C5 — the awaiting-address invariant

`AwaitInv st`: whenever `next_step = "await_address"`, `requested_items`
is a non-empty list.  It is established handler by handler and then
carried through every reachable state of the webhook loop.
-/

/-- `route_intent` returns the address handler only from the
awaiting-address state. -/
theorem route_intent_address {st : ChatState}
    (hr : route_intent st = Route.rAddressInput) :
    st.next_step = some (S "await_address") := by
  by_cases h1 : st.next_step = some (S "await_address")
  · exact h1
  · exfalso
    unfold route_intent at hr
    rw [if_neg h1] at hr
    repeat' split at hr
    all_goals simp at hr

/-- `route_intent` dispatches to `handle_new_order` only outside the
awaiting-address state. -/
theorem route_intent_new_order {st : ChatState}
    (hr : route_intent st = Route.rNewOrder) :
    st.next_step ≠ some (S "await_address") := by
  intro hn
  unfold route_intent at hr
  rw [if_pos hn] at hr
  exact Route.noConfusion hr

/-- `route_next_step` loops into the address handler exactly from the
awaiting-address state. -/
theorem route_next_step_eq {st : ChatState} (h : route_next_step st = true) :
    st.next_step = some (S "await_address") := by
  simpa [route_next_step] using h

/-- `detect_language` touches neither `next_step` nor `requested_items`. -/
theorem detect_language_inv (st : ChatState) (env : TurnEnv) (h : AwaitInv st) :
    AwaitInv (detect_language st env) := by
  intro hstep
  exact h hstep

/-- `process_input` never writes `next_step`. -/
theorem process_input_next_step (st : ChatState) (env : TurnEnv) :
    (process_input st env).next_step = st.next_step := by
  simp only [process_input]
  split
  · rfl
  · split
    · rfl
    · cases env.classifyLlm <;> rfl

/-- In the awaiting-address state, `process_input` leaves
`requested_items` untouched (the early-return branch). -/
theorem process_input_items_of_await (st : ChatState) (env : TurnEnv)
    (hawait : st.next_step = some (S "await_address")) :
    (process_input st env).requested_items = st.requested_items := by
  simp only [process_input]
  rw [if_pos hawait]

/-- `process_input` preserves the invariant. -/
theorem process_input_inv (st : ChatState) (env : TurnEnv) (h : AwaitInv st) :
    AwaitInv (process_input st env) := by
  intro hstep
  rw [process_input_next_step] at hstep
  obtain ⟨l, hl, hne⟩ := h hstep
  refine ⟨l, ?_, hne⟩
  rw [process_input_items_of_await st env hstep]
  exact hl

/-- The core of `handle_new_order` establishes the invariant: it enters
`await_address` only straight after storing the (non-empty) validated
product list. -/
theorem handle_new_order_core_inv (st : ChatState) (env : TurnEnv) (items : List Str)
    (h : st.next_step ≠ some (S "await_address")) :
    AwaitInv (handle_new_order_core st env items) := by
  simp only [handle_new_order_core]
  split
  · intro hstep; exact absurd hstep h
  · split
    · intro hstep; exact absurd hstep h
    · rename_i hvalid
      split
      · cases env.noOrderResult with
        | error e => intro hstep; exact absurd hstep h
        | ok oid =>
          cases env.noConfirmLlm with
          | none => intro hstep; exact absurd hstep h
          | some t => intro hx; simp at hx
      · cases env.noAskAddrLlm with
        | some t => intro _; exact ⟨_, rfl, hvalid⟩
        | none => intro _; exact ⟨_, rfl, hvalid⟩

/-- `handle_new_order` preserves the invariant from any
non-awaiting-address state. -/
theorem handle_new_order_inv (st : ChatState) (env : TurnEnv)
    (h : st.next_step ≠ some (S "await_address")) :
    AwaitInv (handle_new_order st env) := by
  unfold handle_new_order
  split
  · exact handle_new_order_core_inv _ env _ h
  · intro hstep; exact absurd hstep h
  · intro hstep; exact absurd hstep h
  · exact handle_new_order_core_inv _ env _ h

/-- `handle_address_input` preserves the invariant when entered from the
awaiting-address state: the branches that stay in `await_address` leave
`requested_items` untouched, all other branches clear `next_step`. -/
theorem handle_address_input_inv (st : ChatState) (env : TurnEnv)
    (hstep : st.next_step = some (S "await_address")) (h : AwaitInv st) :
    AwaitInv (handle_address_input st env) := by
  obtain ⟨l, hl, hne⟩ := h hstep
  simp only [handle_address_input]
  split
  · intro _; exact ⟨l, hl, hne⟩
  · split
    · intro hx; simp at hx
    · cases env.aiOrderResult with
      | error e => intro _; exact ⟨l, hl, hne⟩
      | ok oid =>
        cases env.aiConfirmLlm with
        | none => intro _; exact ⟨l, hl, hne⟩
        | some t => intro hx; simp at hx

/-- `handle_greeting` touches only `response`. -/
theorem handle_greeting_inv (st : ChatState) (env : TurnEnv) (h : AwaitInv st) :
    AwaitInv (handle_greeting st env) := by
  intro hstep; exact h hstep

/-- `handle_none` touches only `response`. -/
theorem handle_none_inv (st : ChatState) (env : TurnEnv) (h : AwaitInv st) :
    AwaitInv (handle_none st env) := by
  intro hstep; exact h hstep

/-- `handle_list_products` touches only `response` and the trace. -/
theorem handle_list_products_inv (st : ChatState) (env : TurnEnv) (h : AwaitInv st) :
    AwaitInv (handle_list_products st env) := by
  intro hstep
  have hns : (handle_list_products st env).next_step = st.next_step := by
    simp only [handle_list_products]
    split <;> rfl
  have hri : (handle_list_products st env).requested_items = st.requested_items := by
    simp only [handle_list_products]
    split <;> rfl
  rw [hns] at hstep
  obtain ⟨l, hl, hne⟩ := h hstep
  refine ⟨l, ?_, hne⟩
  rw [hri]
  exact hl

/-- A non-raising `retrieve_order` touches neither `next_step` nor
`requested_items`. -/
theorem retrieve_order_inv (st : ChatState) (env : TurnEnv) (st2 : ChatState)
    (h : AwaitInv st) (heq : retrieve_order st env = Except.ok st2) : AwaitInv st2 := by
  unfold retrieve_order at heq
  split at heq
  · injection heq with h2; subst h2; intro hstep; exact h hstep
  · split at heq
    · injection heq with h2; subst h2; intro hstep; exact h hstep
    · exact Except.noConfusion heq

/-- `riFinish` always clears `next_step`. -/
theorem riFinish_inv (st : ChatState) (r : PyVal) (st2 : ChatState)
    (heq : riFinish st r = Except.ok st2) : AwaitInv st2 := by
  injection heq with h2
  subst h2
  intro hx; simp at hx

/-- The except branch of `handle_report_issue` clears `next_step` when it
returns at all. -/
theorem riExceptPath_inv (st : ChatState) (env : TurnEnv) (st2 : ChatState)
    (heq : riExceptPath st env = Except.ok st2) : AwaitInv st2 := by
  unfold riExceptPath at heq
  split at heq
  · exact Except.noConfusion heq
  · exact riFinish_inv _ _ _ heq

/-- A non-raising `handle_report_issue` always clears `next_step`. -/
theorem handle_report_issue_inv (st : ChatState) (env : TurnEnv) (st2 : ChatState)
    (heq : handle_report_issue st env = Except.ok st2) : AwaitInv st2 := by
  simp only [handle_report_issue] at heq
  split at heq
  · split at heq
    · exact Except.noConfusion heq
    · exact riFinish_inv _ _ _ heq
  · split at heq
    · split at heq
      · exact Except.noConfusion heq
      · exact riFinish_inv _ _ _ heq
    · split at heq
      · exact riExceptPath_inv _ _ _ heq
      · split at heq
        · exact riExceptPath_inv _ _ _ heq
        · split at heq
          · split at heq
            · exact riExceptPath_inv _ _ _ heq
            · exact riFinish_inv _ _ _ heq
          · split at heq
            · exact riExceptPath_inv _ _ _ heq
            · split at heq
              · exact riExceptPath_inv _ _ _ heq
              · split at heq
                · exact riExceptPath_inv _ _ _ heq
                · exact riFinish_inv _ _ _ heq

/-- One graph invocation preserves the invariant. -/
theorem turnE_inv (st : ChatState) (msg : Str) (env : TurnEnv) (st2 : ChatState)
    (h : AwaitInv st) (heq : turnE st msg env = Except.ok st2) : AwaitInv st2 := by
  have h2 : AwaitInv (process_input (detect_language { st with user_input := trimQ msg } env) env) :=
    process_input_inv _ env (detect_language_inv _ env (fun hstep => h hstep))
  simp only [turnE] at heq
  split at heq
  · rename_i hroute
    injection heq with h3; subst h3
    exact handle_address_input_inv _ env (route_intent_address hroute) h2
  · injection heq with h3; subst h3
    exact handle_list_products_inv _ env h2
  · injection heq with h3; subst h3
    exact handle_greeting_inv _ env h2
  · injection heq with h3; subst h3
    exact handle_none_inv _ env h2
  · rename_i hroute
    have h3 : AwaitInv (handle_new_order
        (process_input (detect_language { st with user_input := trimQ msg } env) env) env) :=
      handle_new_order_inv _ env (route_intent_new_order hroute)
    split at heq
    · rename_i hns
      injection heq with h4; subst h4
      exact handle_address_input_inv _ env (route_next_step_eq hns) h3
    · injection heq with h4; subst h4
      exact h3
  · exact retrieve_order_inv _ env st2 h2 heq
  · exact handle_report_issue_inv _ env st2 heq

/-- A full webhook turn preserves the invariant (a raising turn leaves
the stored state unchanged). -/
theorem turn_inv (st : ChatState) (msg : Str) (env : TurnEnv) (h : AwaitInv st) :
    AwaitInv (turn st msg env) := by
  unfold turn
  cases heq : turnE st msg env with
  | ok st2 => exact turnE_inv st msg env st2 h heq
  | error e => exact h

/-- The invariant is carried through any script of turns. -/
theorem run_inv (script : List (Str × TurnEnv)) :
    ∀ st : ChatState, AwaitInv st → AwaitInv (run st script) := by
  induction script with
  | nil => intro st h; exact h
  | cons p rest ih =>
    intro st h
    obtain ⟨msg, env⟩ := p
    exact ih _ (turn_inv st msg env h)

/-- C5: in every state reachable from a fresh conversation state through
any sequence of webhook turns — whatever the LLM completions, API
outcomes and raised exceptions along the way — `pending_step =
awaiting_address` implies `requested_items` is a non-empty list. -/
theorem c5_await_invariant (script : List (Str × TurnEnv)) :
    AwaitInv (run initialState script) :=
  run_inv script initialState (fun hstep => absurd hstep (by decide))

/-- C5, witness: a concrete order turn (no address on file, order
creation failing in the chained address handler) ends in
`await_address`, and the invariant then yields its non-empty item list. -/
theorem c5_await_invariant_witness :
    ∃ l, (run initialState [(S "I want to buy a Lamp", envNewOrderAwait)]).requested_items
        = PyItems.riList l ∧ l ≠ [] :=
  c5_await_invariant [(S "I want to buy a Lamp", envNewOrderAwait)] (by decide)


/-! ## C2 — the awaiting-address turn -/

/-- `route_intent` from an awaiting-address state. -/
theorem route_intent_of_await {st : ChatState}
    (h : st.next_step = some (S "await_address")) :
    route_intent st = Route.rAddressInput := by
  unfold route_intent
  rw [if_pos h]

/-- In the awaiting-address state, the turn is exactly the address
handler applied to the state produced by the early-return branch of
`process_input` — intent forced to `"none"`, the raw (stripped) message
stored, no classification occurring. -/
theorem turn_await_eq (st : ChatState) (msg : Str) (env : TurnEnv)
    (hstep : st.next_step = some (S "await_address")) :
    turn st msg env = handle_address_input
      { st with user_input := trimQ (trimQ (trimQ msg)),
                original_input := trimQ (trimQ msg),
                language := if env.detectedLanguage ∈ valid_languages then env.detectedLanguage
                            else S "english",
                intent := PyVal.pyStr (S "none"),
                address := PyVal.pyStr (trimQ (trimQ (trimQ msg))) } env := by
  have hpi : process_input (detect_language { st with user_input := trimQ msg } env) env
      = { st with user_input := trimQ (trimQ (trimQ msg)),
                  original_input := trimQ (trimQ msg),
                  language := if env.detectedLanguage ∈ valid_languages then env.detectedLanguage
                              else S "english",
                  intent := PyVal.pyStr (S "none"),
                  address := PyVal.pyStr (trimQ (trimQ (trimQ msg))) } := by
    simp only [process_input, detect_language]
    rw [if_pos hstep]
  have hroute : route_intent
      (process_input (detect_language { st with user_input := trimQ msg } env) env)
      = Route.rAddressInput := by
    rw [hpi]
    exact route_intent_of_await hstep
  simp only [turn, turnE]
  rw [hroute, hpi]

/-- The successful-entry behaviour of `handle_address_input`: with a
non-empty message and a truthy item list it records the address update
and the order attempt, leaves `intent` alone, and — when both the order
creation and the confirmation completion succeed — clears `next_step`
and `requested_items`. -/
theorem handle_address_input_run (st : ChatState) (env : TurnEnv)
    (hu : ¬ trimQ st.user_input = []) (ht : st.requested_items.truthy = true) :
    (handle_address_input st env).intent = st.intent ∧
    (handle_address_input st env).trace
      = st.trace ++ [ApiCall.updateAddress (trimQ st.user_input),
                     ApiCall.newOrder st.requested_items.asList none] ∧
    (∀ oid t, env.aiOrderResult = Except.ok oid → env.aiConfirmLlm = some t →
      (handle_address_input st env).next_step = none ∧
      (handle_address_input st env).requested_items = PyItems.riList []) := by
  have hnt : ¬ ((!st.requested_items.truthy) = true) := by simp [ht]
  refine ⟨?_, ?_, ?_⟩
  · simp only [handle_address_input]
    rw [if_neg hu, if_neg hnt]
    cases env.aiOrderResult with
    | error e => rfl
    | ok oid => cases env.aiConfirmLlm <;> rfl
  · simp only [handle_address_input]
    rw [if_neg hu, if_neg hnt]
    cases env.aiOrderResult with
    | error e => rfl
    | ok oid => cases env.aiConfirmLlm <;> rfl
  · intro oid t h1 h2
    simp only [handle_address_input]
    rw [if_neg hu, if_neg hnt, h1, h2]
    exact ⟨rfl, rfl⟩

/-- C2, counterexample: a whitespace-only next message in the
awaiting-address state is *not* consumed as the address — no
`update_address` or `new_order` call happens (the trace stays empty), no
order is created, `pending_step` stays `awaiting_address` and
`requested_items` stays populated; the handler merely re-prompts. -/
theorem c2_awaiting_address_counterexample :
    awaitState.next_step = some (S "await_address") ∧
    (turn awaitState (S "  ") envBase).next_step = some (S "await_address") ∧
    (turn awaitState (S "  ") envBase).requested_items = PyItems.riList [S "Lamp"] ∧
    (turn awaitState (S "  ") envBase).trace = [] := by
  refine ⟨by decide, by decide, by decide, by decide⟩

/-- C2, amended: in the awaiting-address state with pending items, any
next message with non-empty stripped text is routed to the address
handler with classification bypassed (the result is unchanged under any
replacement of the classification completion, and `intent` is forced to
`"none"`); the stripped raw text is stored verbatim via `update_address`
and an order creation is attempted for the pending items (the
`new_order` payload itself carries no address); when both the order
creation and the confirmation completion succeed, `pending_step` resets
to `None` and `requested_items` clears to `[]`. -/
theorem c2_awaiting_address_amended (st : ChatState) (msg : Str) (env : TurnEnv)
    (l : List Str) (hstep : st.next_step = some (S "await_address"))
    (hitems : st.requested_items = PyItems.riList l) (hl : l ≠ [])
    (hmsg : trimQ msg ≠ []) :
    (∀ g, turn st msg { env with classifyLlm := g } = turn st msg env) ∧
    (turn st msg env).intent = PyVal.pyStr (S "none") ∧
    ApiCall.updateAddress (trimQ msg) ∈ (turn st msg env).trace ∧
    ApiCall.newOrder l none ∈ (turn st msg env).trace ∧
    (∀ oid t, env.aiOrderResult = Except.ok oid → env.aiConfirmLlm = some t →
      (turn st msg env).next_step = none ∧
      (turn st msg env).requested_items = PyItems.riList []) := by
  rw [turn_await_eq st msg env hstep, trimQ_idem (trimQ msg), trimQ_idem msg]
  set stR : ChatState :=
    { st with user_input := trimQ msg,
              original_input := trimQ msg,
              language := if env.detectedLanguage ∈ valid_languages then env.detectedLanguage
                          else S "english",
              intent := PyVal.pyStr (S "none"),
              address := PyVal.pyStr (trimQ msg) } with hstR
  have hu : ¬ trimQ stR.user_input = [] := by
    rw [hstR]
    simpa [trimQ_idem] using hmsg
  have ht : stR.requested_items.truthy = true := by
    have hri : stR.requested_items = PyItems.riList l := by rw [hstR]; exact hitems
    rw [hri]
    simp [PyItems.truthy, hl]
  obtain ⟨hint, htr, hsucc⟩ := handle_address_input_run stR env hu ht
  refine ⟨?_, ?_, ?_, ?_, ?_⟩
  · intro g
    rw [turn_await_eq st msg { env with classifyLlm := g } hstep,
        trimQ_idem (trimQ msg), trimQ_idem msg, hstR]
    rfl
  · rw [hint, hstR]
  · rw [htr]
    simp [hstR, trimQ_idem]
  · rw [htr]
    simp [hstR, hitems, PyItems.asList]
  · intro oid t h1 h2
    exact hsucc oid t h1 h2

/-- C2, witness: a concrete address turn in which the order creation and
the confirmation both succeed. -/
theorem c2_awaiting_address_amended_witness :
    (turn awaitState (S " 12 Rue X, Tunis ") envOrderOk).intent = PyVal.pyStr (S "none") ∧
    ApiCall.updateAddress (trimQ (S " 12 Rue X, Tunis "))
      ∈ (turn awaitState (S " 12 Rue X, Tunis ") envOrderOk).trace ∧
    ApiCall.newOrder [S "Lamp"] none
      ∈ (turn awaitState (S " 12 Rue X, Tunis ") envOrderOk).trace ∧
    (turn awaitState (S " 12 Rue X, Tunis ") envOrderOk).next_step = none ∧
    (turn awaitState (S " 12 Rue X, Tunis ") envOrderOk).requested_items
      = PyItems.riList [] := by
  have h := c2_awaiting_address_amended awaitState (S " 12 Rue X, Tunis ") envOrderOk
    [S "Lamp"] (by decide) (by decide) (by decide) (by decide)
  have hs := h.2.2.2.2 (S "ord1") (S "**Response:** Done!") rfl rfl
  exact ⟨h.2.1, h.2.2.1, h.2.2.2.1, hs.1, hs.2⟩


/-! ## C10 — `api_call` never raises; errors roll back -/

/-- Whenever the try-body returns an `{"error": …}` dict, it performed no
commit, so the committed store is exactly the input store. -/
theorem api_call_inner_error_db (endpoint : Str) (payload : Payload) (db : Db)
    (env : ApiEnv) :
    ∀ r, api_call_inner endpoint payload db env = Except.ok r →
      hasErrorKey r.2 = true → r.1 = db := by
  intro r h herr
  have e1 : ((S "name" : Str) == S "error") = false := by decide
  have e2 : ((S "address" : Str) == S "error") = false := by decide
  have e3 : ((S "status" : Str) == S "error") = false := by decide
  have e4 : ((S "order_id" : Str) == S "error") = false := by decide
  have e5 : ((S "issue_id" : Str) == S "error") = false := by decide
  unfold api_call_inner at h
  repeat' split at h
  all_goals first
    | exact Except.noConfusion h
    | (injection h with h2; subst h2; rfl)
    | (injection h with h2; subst h2;
       simp [hasErrorKey, e1, e2, e3, e4, e5] at herr)

/-- C10: `api_call` is total by construction (the outer handler turns
every exception into a return value); when the returned dict carries an
`"error"` key the committed store is unchanged — either the exception
reached the outer `session.rollback()` before any commit, or an inner
handler returned the error dict without committing — and an unknown
endpoint returns `{"error": "Invalid endpoint"}` without touching the
store. -/
theorem c10_api_call_safe (endpoint : Str) (payload : Payload) (db : Db) (env : ApiEnv) :
    (hasErrorKey (api_call endpoint payload db env).2 = true →
      (api_call endpoint payload db env).1 = db) ∧
    (endpoint ∉ knownEndpoints →
      api_call endpoint payload db env = (db, ApiRes.dict [(S "error", S "Invalid endpoint")])) := by
  constructor
  · intro herr
    unfold api_call at herr ⊢
    cases hinner : api_call_inner endpoint payload db env with
    | error e => rfl
    | ok r =>
      rw [hinner] at herr
      exact api_call_inner_error_db endpoint payload db env r hinner herr
  · intro hunk
    simp only [knownEndpoints, List.mem_cons, List.not_mem_nil, or_false, not_or] at hunk
    obtain ⟨h1, h2, h3, h4, h5, h6⟩ := hunk
    unfold api_call api_call_inner
    rw [if_neg h1, if_neg h2, if_neg h3, if_neg h4, if_neg h5, if_neg h6]

/-- C10, witness: an unknown endpoint on a concrete store. -/
theorem c10_api_call_safe_witness :
    api_call (S "bogus") payload0 db0 apiEnv0
      = (db0, ApiRes.dict [(S "error", S "Invalid endpoint")]) :=
  (c10_api_call_safe (S "bogus") payload0 db0 apiEnv0).2 (by decide)

end Chatbot
